import Mathlib

/-!
Shallow embedding of the CSV-to-Tally voucher converter
(repository theanatomyshop/converter, file src/testing.py).

Layer 1 models Python `Decimal` values as sign/coefficient/exponent
triples, together with the string parser used by the normalizer `d`
and the two formatting modes of `fmt_amount`.

Layer 2 models the voucher builder, the TCS aggregator and `convert`
over rows whose monetary fields are already-normalized exact decimal
amounts, represented as rationals.  Python `Decimal` addition and
division by two are exact whenever the operands stay within the
default context precision of 28 significant digits; the rational
model performs them exactly.

The XML scaffolding (constant header fields, empty allocation lists)
carries no computed data and is not modeled; vouchers are modeled by
the computed fields the specification speaks about: ledger entries
with names, signed amounts, deemed-positive flags and bill
allocations, plus the inventory accounting allocation and the
TCS voucher's date-derived fields.
-/

namespace AnatomyConverter

/-- A finite Python `Decimal` value: sign, coefficient, exponent.
The value denoted is `(-1)^neg * coeff * 10^exp`.  Leading zeros are
stripped from the coefficient by the `Decimal` constructor, so a
natural-number coefficient is a faithful representation (a zero
coefficient is stored as the single digit 0). -/
structure DecFin where
  neg : Bool
  coeff : ℕ
  exp : ℤ
deriving DecidableEq, Repr

/-- A Python `Decimal` value: finite, an infinity, or a (quiet or
signaling) NaN.  The diagnostic payload of a NaN is not modeled. -/
inductive DecValue where
  | fin (x : DecFin)
  | inf (neg : Bool)
  | nan (neg : Bool) (signaling : Bool)
deriving DecidableEq, Repr

/-- True exactly on the finite decimals. -/
def DecValue.isFinite : DecValue → Bool
  | .fin _ => true
  | _ => false

/-- Python `str.strip()` (the ASCII whitespace cases; the rarer
Unicode whitespace code points Python also strips are not modeled). -/
def pyStrip (s : String) : String :=
  String.mk ((s.toList.dropWhile Char.isWhitespace).reverse.dropWhile
    Char.isWhitespace).reverse

/-- Python `str.lower()` (ASCII case mapping). -/
def pyLower (s : String) : String := String.mk (s.toList.map Char.toLower)

/-- Split a character list at every separator satisfying `p`,
keeping empty segments (Python `str.split(sep)` semantics). -/
def splitPred (p : Char → Bool) : List Char → List (List Char)
  | [] => [[]]
  | c :: rest =>
      let r := splitPred p rest
      if p c then [] :: r
      else
        match r with
        | [] => [[c]]
        | h :: t => (c :: h) :: t

/-- The whitespace-separated words of a string (Python `str.split()`
with no argument: runs of whitespace separate, empties dropped). -/
def pyWords (s : String) : List (List Char) :=
  (splitPred Char.isWhitespace s.toList).filter (fun w => w ≠ [])

/-- Numeric value of a string of decimal digits. -/
def natOfDigits (cs : List Char) : ℕ :=
  cs.foldl (fun a c => a * 10 + (c.toNat - 48)) 0

/-- Parser for the numeric body of a decimal literal, after the sign:
`digits [. digits] | . digits`, followed by an optional exponent
`(e|E) [sign] digits`; the whole input must be consumed.  Mirrors the
grammar accepted by the Python `Decimal` constructor (underscore
digit grouping is not modeled). -/
def parseNumeric (neg : Bool) (cs : List Char) : Option DecValue :=
  let ip := cs.takeWhile Char.isDigit
  let rest1 := cs.dropWhile Char.isDigit
  let (fp, rest2) :=
    match rest1 with
    | '.' :: r =>
        (r.takeWhile Char.isDigit, r.dropWhile Char.isDigit)
    | _ => ([], rest1)
  if ip.isEmpty ∧ fp.isEmpty then none
  else
    let coeff := natOfDigits (ip ++ fp)
    let baseExp : ℤ := -(fp.length : ℤ)
    match rest2 with
    | [] => some (.fin ⟨neg, coeff, baseExp⟩)
    | 'e' :: r =>
        let (eneg, r') :=
          match r with
          | '-' :: r' => (true, r')
          | '+' :: r' => (false, r')
          | _ => (false, r)
        let ed := r'.takeWhile Char.isDigit
        if ed.isEmpty ∨ ¬ (r'.dropWhile Char.isDigit).isEmpty then none
        else
          let e : ℤ := if eneg then -(natOfDigits ed : ℤ) else (natOfDigits ed : ℤ)
          some (.fin ⟨neg, coeff, baseExp + e⟩)
    | _ => none

/-- The string parser of the Python `Decimal` constructor (applied by
`d` to an already-stripped string): an optional sign followed by a
numeric literal, `Inf`/`Infinity`, `NaN` or `sNaN` (case-insensitive,
an optional diagnostic digit string after a NaN is accepted). -/
def parseDecimal (s : String) : Option DecValue :=
  let cs := (pyLower s).toList
  let (neg, body) :=
    match cs with
    | '-' :: r => (true, r)
    | '+' :: r => (false, r)
    | _ => (false, cs)
  if body = ['i', 'n', 'f'] ∨ body = ['i', 'n', 'f', 'i', 'n', 'i', 't', 'y'] then
    some (.inf neg)
  else
    match body with
    | 'n' :: 'a' :: 'n' :: r =>
        if r.all Char.isDigit then some (.nan neg false) else none
    | 's' :: 'n' :: 'a' :: 'n' :: r =>
        if r.all Char.isDigit then some (.nan neg true) else none
    | _ => parseNumeric neg body

/-- `Decimal("0")`: the value the normalizer falls back to. -/
def decZero : DecValue := .fin ⟨false, 0, 0⟩

/-- src/testing.py lines 17-21: the decimal normalizer `d`.  Strip the
input; an empty result yields zero; a parse failure (the
`InvalidOperation`/`ValueError` handler) yields zero. -/
def d (s : String) : DecValue :=
  let t := pyStrip s
  if t = "" then decZero
  else
    match parseDecimal t with
    | some v => v
    | none => decZero

/-- The decimal digit character for `n % 10`. -/
def digitChar : ℕ → Char
  | 0 => '0'
  | 1 => '1'
  | 2 => '2'
  | 3 => '3'
  | 4 => '4'
  | 5 => '5'
  | 6 => '6'
  | 7 => '7'
  | 8 => '8'
  | 9 => '9'
  | n + 10 => digitChar n

/-- Round `c / 10^k` to the nearest integer, ties to even — the
`ROUND_HALF_EVEN` rounding of the default decimal context. -/
def rhe (c : ℕ) (k : ℕ) : ℕ :=
  let p := 10 ^ k
  let q := c / p
  let r := c % p
  if 2 * r < p then q
  else if p < 2 * r then q + 1
  else if q % 2 = 0 then q else q + 1

/-- The coefficient of `x` rescaled to exponent -2 under half-even
rounding: the coefficient `quantize(Decimal("0.01"))` would produce. -/
def quant2Coeff (x : DecFin) : ℕ :=
  if 0 ≤ x.exp + 2 then x.coeff * 10 ^ (x.exp + 2).toNat
  else rhe x.coeff (-(x.exp + 2)).toNat

/-- `quantize(Decimal("0.01"))` in the default context: rescale to
exponent -2 with half-even rounding, signalling `InvalidOperation`
(modeled as `Except.error`) when the resulting coefficient exceeds
the context precision of 28 digits. -/
def quantizeTo2 (x : DecFin) : Except Unit DecFin :=
  if quant2Coeff x < 10 ^ 28 then .ok ⟨x.neg, quant2Coeff x, -2⟩
  else .error ()

/-- Whether a finite decimal denotes an integer (the comparison
`val == val.to_integral()` of the source). -/
def isIntegral (x : DecFin) : Bool :=
  if 0 ≤ x.exp then true else x.coeff % 10 ^ (-x.exp).toNat = 0

/-- `str` of a finite Python `Decimal`: the to-scientific-string
conversion of the decimal arithmetic specification.  Plain notation
is used when the exponent is ≤ 0 and the adjusted exponent is ≥ -6;
otherwise scientific notation with the adjusted exponent. -/
def strDec (x : DecFin) : String :=
  let ds := toString x.coeff
  let n : ℤ := (ds.length : ℤ)
  let adj : ℤ := x.exp + n - 1
  let sign := if x.neg then "-" else ""
  if x.exp ≤ 0 ∧ -6 ≤ adj then
    if x.exp = 0 then sign ++ ds
    else if 0 < n + x.exp then
      sign ++ String.mk (ds.toList.take (n + x.exp).toNat) ++ "." ++
        String.mk (ds.toList.drop (n + x.exp).toNat)
    else
      sign ++ "0." ++ String.mk (List.replicate (-(n + x.exp)).toNat '0') ++ ds
  else
    let head := String.mk (ds.toList.take 1)
    let tail := ds.toList.drop 1
    sign ++ head ++ (if tail.isEmpty then "" else "." ++ String.mk tail) ++
      "E" ++ (if 0 ≤ adj then "+" else "") ++ toString adj

/-- Fixed-point rendering with two fractional digits of a decimal
already at exponent -2 (sign `neg`, coefficient `c`): the result of
`f"{...:.2f}"` on the quantized value. -/
def formatFixed2 (neg : Bool) (c : ℕ) : String :=
  String.mk ((if neg then ['-'] else []) ++ (toString (c / 100)).toList ++
    ['.', digitChar (c / 10 % 10), digitChar (c % 10)])

/-- Fixed-point rendering of a finite decimal with one fractional
digit, `f"{val:.1f}"` (half-even rounding, exact on the integral
values the source applies it to). -/
def formatFixed1 (x : DecFin) : String :=
  let c1 := if 0 ≤ x.exp + 1 then x.coeff * 10 ^ (x.exp + 1).toNat
            else rhe x.coeff (-(x.exp + 1)).toNat
  String.mk ((if x.neg then ['-'] else []) ++ (toString (c1 / 10)).toList ++
    ['.', digitChar (c1 % 10)])

/-- Python `str.rstrip` with a single-character strip set. -/
def rstripChar (s : String) (c : Char) : String :=
  String.mk (s.toList.reverse.dropWhile (fun a => a == c)).reverse

/-- The `.rstrip("0").rstrip(".")` post-processing of the compact
formatting branch. -/
def strip0dot (s : String) : String := rstripChar (rstripChar s '0') '.'

/-- Whether the plain rendering of a decimal contains a decimal point
(the `"." in f"{val}"` test of the source). -/
def hasDot (s : String) : Bool := s.toList.contains '.'

/-- src/testing.py lines 46-53, `force_two=True` branch of
`fmt_amount`: quantize to two decimals, then render with `:.2f`.
A signaling NaN raises inside `quantize`; an infinity raises because
it cannot be quantized to a finite exponent; a quiet NaN propagates
through `quantize` and renders as `NaN`. -/
def fmt_amount_two : DecValue → Except Unit String
  | .fin x => (quantizeTo2 x).map (fun q => formatFixed2 q.neg q.coeff)
  | .inf _ => .error ()
  | .nan neg false => .ok ((if neg then "-" else "") ++ "NaN")
  | .nan _ true => .error ()

/-- src/testing.py lines 46-58, compact branch of `fmt_amount`
(`force_two=False`): zero renders as `"0"`; a non-zero integral value
renders via `:.1f`; otherwise, when the plain rendering contains a
point, the two-decimal quantization is rendered and stripped of
trailing zeros and a trailing point, and when it does not (scientific
notation), the plain rendering is returned unchanged.  A quiet NaN
falls through every test and is returned as its plain rendering; a
signaling NaN raises at the first comparison; an infinity satisfies
the integral test and is rendered by `:.1f` as `Infinity`. -/
def fmt_amount : DecValue → Except Unit String
  | .fin x =>
      if x.coeff = 0 then .ok "0"
      else if isIntegral x then .ok (formatFixed1 x)
      else if hasDot (strDec x) then
        (quantizeTo2 x).map (fun q => strip0dot (strDec q))
      else .ok (strDec x)
  | .inf neg => .ok ((if neg then "-" else "") ++ "Infinity")
  | .nan neg false => .ok ((if neg then "-" else "") ++ "NaN")
  | .nan _ true => .error ()

/-- Test of the textual shape "ends with a decimal point followed by
exactly two digits", on the reversed character list. -/
def twoFracDigitsL : List Char → Bool
  | b :: a :: c :: _ => a.isDigit && b.isDigit && (c == '.')
  | _ => false

/-- A string has exactly two digits after its (last) decimal point. -/
def twoFracDigits (s : String) : Bool := twoFracDigitsL s.toList.reverse

/-- Test of the textual shape "ends with a decimal point followed by
exactly one digit", on the reversed character list. -/
def oneFracDigitL : List Char → Bool
  | a :: c :: _ => a.isDigit && (c == '.')
  | _ => false

/-- A string has exactly one digit after its (last) decimal point. -/
def oneFracDigit (s : String) : Bool := oneFracDigitL s.toList.reverse

/-- One input CSV row, with its monetary fields already normalized to
exact decimal amounts (represented as rationals) and the textual
fields the modeled computation reads. -/
structure Row where
  transactionType : String
  orderId : String
  shipFromState : String
  shipToState : String
  invoiceDate : String
  orderDate : String
  creditNoteDate : String
  principalBasis : ℚ
  invoiceAmount : ℚ
  cgst : ℚ
  sgst : ℚ
  igst : ℚ
  utgst : ℚ
  shipAmt : ℚ
  shipPromo : ℚ
  shipPromoTax : ℚ
  shipCgst : ℚ
  shipSgst : ℚ
  shipIgst : ℚ
  shipUtgst : ℚ
  tcsCgst : ℚ
  tcsSgst : ℚ
  tcsUtgst : ℚ
  tcsIgst : ℚ
deriving DecidableEq, Repr

/-- src/testing.py lines 42-43: interstate iff the trimmed,
lower-cased ship-from and ship-to states differ. -/
def is_interstate (r : Row) : Bool :=
  pyLower (pyStrip r.shipFromState) != pyLower (pyStrip r.shipToState)

/-- src/testing.py lines 61-69: transaction type to voucher type. -/
def voucher_type (txn : String) : String :=
  let t := pyLower txn
  if t = "refund" then "Amazon Return"
  else if t = "freereplacement" then "Amazon Sales"
  else if t = "cancel" then "Amazon Cancel"
  else "Amazon Sales"

/-- A bill allocation under a ledger entry: order id and amount. -/
structure BillAlloc where
  name : String
  amount : ℚ
deriving DecidableEq, Repr

/-- A ledger entry as the builder emits it: ledger name, signed
amount, the `ISDEEMEDPOSITIVE` flag (`true` renders as `"Yes"`), and
its bill allocations. -/
structure LedgerEntry where
  ledgerName : String
  amount : ℚ
  isDeemedPositive : Bool
  bills : List BillAlloc
deriving DecidableEq, Repr

/-- One invoice voucher, restricted to the computed fields the claims
concern: its type, its ledger entries in emission order, and the
inventory line's accounting allocation (ledger name, amount, flag)
together with the inventory entry's own deemed-positive flag. -/
structure Voucher where
  vchType : String
  entries : List LedgerEntry
  invAccName : String
  invAccAmount : ℚ
  invAccDeemed : Bool
  invDeemed : Bool
deriving DecidableEq, Repr

/-- src/testing.py lines 311-326: the party ledger entry.  The amount
is `abs(invoice_amount)` for refunds and `-invoice_amount` otherwise;
the entry carries one bill allocation keyed by the order id. -/
def party_entry (r : Row) : LedgerEntry :=
  let refund := pyLower (pyStrip r.transactionType) == "refund"
  let amt := if refund then |r.invoiceAmount| else -r.invoiceAmount
  ⟨"Amazon.in", amt, decide (amt < 0), [⟨pyStrip r.orderId, amt⟩]⟩

/-- src/testing.py lines 328-346: the shipping ledger entry, emitted
only when the shipping amount is non-zero. -/
def ship_entries (r : Row) : List LedgerEntry :=
  if r.shipAmt ≠ 0 then [⟨"Shipping Charges", r.shipAmt, decide (r.shipAmt < 0), []⟩]
  else []

/-- src/testing.py lines 348-363: the shipping-promo ledger entry,
emitted only when the promo discount is non-zero.  Its
`ISDEEMEDPOSITIVE` flag is hard-coded to `"No"` (the source comment:
keep deemed positive as No to avoid double-negating in the Tally UI),
regardless of the amount's sign. -/
def promo_entries (r : Row) : List LedgerEntry :=
  if r.shipPromo ≠ 0 then [⟨"ship-promotion-discount", r.shipPromo, false, []⟩]
  else []

/-- A GST ledger entry: flag derived from the sign of the amount. -/
def mkGstEntry (name : String) (amt : ℚ) : LedgerEntry :=
  ⟨name, amt, decide (amt < 0), []⟩

/-- src/testing.py lines 386-394, CGST total of an intrastate row:
when a UTGST component is present the promo tax goes to UTGST and the
CGST total is item + shipping; otherwise half the promo tax
(`promo_split = ship_promo_tax / 2`) is added. -/
def total_cgst (r : Row) : ℚ :=
  if r.utgst ≠ 0 ∨ r.shipUtgst ≠ 0 then r.cgst + r.shipCgst
  else r.cgst + r.shipCgst + r.shipPromoTax / 2

/-- src/testing.py lines 386-394, SGST total of an intrastate row. -/
def total_sgst (r : Row) : ℚ :=
  if r.utgst ≠ 0 ∨ r.shipUtgst ≠ 0 then r.sgst + r.shipSgst
  else r.sgst + r.shipSgst + r.shipPromoTax / 2

/-- src/testing.py lines 386-394, UTGST total of an intrastate row:
the promo tax contributes exactly when a UTGST component is
present. -/
def total_utgst (r : Row) : ℚ :=
  if r.utgst ≠ 0 ∨ r.shipUtgst ≠ 0 then r.utgst + r.shipUtgst + r.shipPromoTax
  else r.utgst + r.shipUtgst

/-- src/testing.py lines 365-427: the GST ledger entries.  Interstate
rows combine item IGST, shipping IGST and shipping-promo tax into one
IGST entry, emitted only if non-zero.  Intrastate rows emit CGST,
SGST and UTGST entries with the totals above, each only if non-zero,
in that order. -/
def gst_entries (r : Row) : List LedgerEntry :=
  if is_interstate r then
    if r.igst + r.shipIgst + r.shipPromoTax ≠ 0 then
      [mkGstEntry "IGST @ 18%" (r.igst + r.shipIgst + r.shipPromoTax)]
    else []
  else
    (if total_cgst r ≠ 0 then [mkGstEntry "CGST @ 9%" (total_cgst r)] else []) ++
    (if total_sgst r ≠ 0 then [mkGstEntry "SGST @ 9%" (total_sgst r)] else []) ++
    (if total_utgst r ≠ 0 then [mkGstEntry "UTGST @ 9%" (total_utgst r)] else [])

/-- src/testing.py lines 137-465: one invoice voucher per row.  The
ledger entries come in source order: party, then the optional
shipping and promo entries, then the GST entries.  The inventory
line's accounting allocation uses the interstate or local sales
ledger and the principal basis, with deemed-positive flags from the
principal basis's sign. -/
def build_voucher (r : Row) : Voucher :=
  ⟨voucher_type (pyStrip r.transactionType),
    party_entry r :: (ship_entries r ++ promo_entries r ++ gst_entries r),
    if is_interstate r then "Sales GST Interstate @ 18%" else "Sales GST Local @ 18%",
    r.principalBasis,
    decide (r.principalBasis < 0),
    decide (r.principalBasis < 0)⟩

/-! ### Dates -/

/-- A parsed `datetime` value (microseconds and seconds are always
zero for the formats the converter parses). -/
structure Date where
  year : ℕ
  month : ℕ
  day : ℕ
  hour : ℕ
  minute : ℕ
deriving DecidableEq, Repr

/-- Days in a month, with the Gregorian leap rule. -/
def daysInMonth (y m : ℕ) : ℕ :=
  if m = 2 then
    if y % 4 = 0 ∧ (y % 100 ≠ 0 ∨ y % 400 = 0) then 29 else 28
  else if m = 4 ∨ m = 6 ∨ m = 9 ∨ m = 11 then 30
  else 31

/-- A 1- or 2-digit number in the inclusive range, as `strptime`'s
`%d`, `%m`, `%H`, `%M` directives accept. -/
def parse2 (cs : List Char) (lo hi : ℕ) : Option ℕ :=
  if (cs.length = 1 ∨ cs.length = 2) ∧ cs.all Char.isDigit then
    let n := natOfDigits cs
    if lo ≤ n ∧ n ≤ hi then some n else none
  else none

/-- A `%d-%m-%Y` date token: 1-2 digit day and month, exactly 4 digit
year, validated against the calendar as `datetime` construction
does. -/
def parseDMY (cs : List Char) : Option (ℕ × ℕ × ℕ) :=
  match splitPred (fun c => c == '-') cs with
  | [ds, ms, ys] => do
      let day ← parse2 ds 1 31
      let month ← parse2 ms 1 12
      if ys.length = 4 ∧ ys.all Char.isDigit then
        let year := natOfDigits ys
        if day ≤ daysInMonth year month then some (day, month, year) else none
      else none
  | _ => none

/-- A `%H:%M` time token. -/
def parseHM (cs : List Char) : Option (ℕ × ℕ) :=
  match splitPred (fun c => c == ':') cs with
  | [hs, ms] => do
      let h ← parse2 hs 0 23
      let m ← parse2 ms 0 59
      some (h, m)
  | _ => none

/-- `strptime(raw, "%d-%m-%Y %H:%M")`: a date token and a time token
separated by whitespace, consuming the whole string. -/
def parseDateTime (raw : String) : Option Date :=
  match pyWords raw with
  | [dpart, tpart] => do
      let (day, month, year) ← parseDMY dpart
      let (hour, minute) ← parseHM tpart
      some ⟨year, month, day, hour, minute⟩
  | _ => none

/-- src/testing.py lines 24-31: `parse_date`.  Empty input yields no
date; the primary date-time format is tried first; on failure the
first whitespace-separated word is parsed as a date-only value; if
that fails too the `ValueError` propagates (modeled as
`Except.error`). -/
def parse_date (s : String) : Except Unit (Option Date) :=
  let raw := pyStrip s
  if raw = "" then .ok none
  else
    match parseDateTime raw with
    | some dt => .ok (some dt)
    | none =>
        match parseDMY ((pyWords raw).headD []) with
        | some (day, month, year) => .ok (some ⟨year, month, day, 0, 0⟩)
        | none => .error ()

/-- src/testing.py lines 34-35: `tally_date`, the `%Y%m%d` form. -/
def pad2 (n : ℕ) : String := if n < 10 then "0" ++ toString n else toString n

/-- Zero-padded 4-digit year. -/
def pad4 (n : ℕ) : String :=
  if n < 10 then "000" ++ toString n
  else if n < 100 then "00" ++ toString n
  else if n < 1000 then "0" ++ toString n
  else toString n

/-- `strftime("%Y%m%d")` of a parsed date. -/
def tally_date (dt : Date) : String := pad4 dt.year ++ pad2 dt.month ++ pad2 dt.day

/-- `%b` month abbreviations. -/
def monthAbbrev : ℕ → String
  | 1 => "Jan" | 2 => "Feb" | 3 => "Mar" | 4 => "Apr" | 5 => "May" | 6 => "Jun"
  | 7 => "Jul" | 8 => "Aug" | 9 => "Sep" | 10 => "Oct" | 11 => "Nov" | 12 => "Dec"
  | _ => ""

/-- `strftime("%b  %d %Y  %I:%M%p")`: the stamp used for the TCS
voucher number and narration. -/
def tcs_stamp (dt : Date) : String :=
  let h12 := if dt.hour % 12 = 0 then 12 else dt.hour % 12
  monthAbbrev dt.month ++ "  " ++ pad2 dt.day ++ " " ++ pad4 dt.year ++ "  " ++
    pad2 h12 ++ ":" ++ pad2 dt.minute ++ (if dt.hour < 12 then "AM" else "PM")

/-- Lexicographic comparison key of a `datetime`. -/
def dateKey (a : Date) : ℕ :=
  (((a.year * 13 + a.month) * 32 + a.day) * 24 + a.hour) * 60 + a.minute

/-- Python `min` over a nonempty list (first minimum wins), with a
default for the empty list. -/
def dt_min (l : List Date) (dflt : Date) : Date :=
  match l with
  | [] => dflt
  | x :: xs => xs.foldl (fun a b => if dateKey b < dateKey a then b else a) x

/-- Python `max` over a nonempty list (first maximum wins), with a
default for the empty list. -/
def dt_max (l : List Date) (dflt : Date) : Date :=
  match l with
  | [] => dflt
  | x :: xs => xs.foldl (fun a b => if dateKey a < dateKey b then b else a) x

/-! ### The TCS aggregator -/

/-- src/testing.py lines 469-479: the four TCS grand totals
(CGST, SGST, UTGST, IGST) summed over all rows. -/
def tcs_totals (rows : List Row) : ℚ × ℚ × ℚ × ℚ :=
  rows.foldl (fun t r =>
    (t.1 + r.tcsCgst, t.2.1 + r.tcsSgst, t.2.2.1 + r.tcsUtgst, t.2.2.2 + r.tcsIgst))
    (0, 0, 0, 0)

/-- Add an amount to a key of an association list, preserving first
insertion order — the behavior of the `defaultdict` accumulation. -/
def upsert (l : List (String × ℚ)) (k : String) (v : ℚ) : List (String × ℚ) :=
  match l with
  | [] => [(k, v)]
  | (k', v') :: t => if k' = k then (k', v' + v) :: t else (k', v') :: upsert t k v

/-- src/testing.py lines 470-480: per-order TCS totals, keyed by the
stripped order id, in first-appearance order. -/
def per_order (rows : List Row) : List (String × ℚ) :=
  rows.foldl (fun acc r =>
    upsert acc (pyStrip r.orderId) (r.tcsCgst + r.tcsSgst + r.tcsUtgst + r.tcsIgst)) []

/-- The aggregate TCS journal voucher: its date-derived header fields
and its ledger entries in emission order. -/
structure TcsVoucher where
  date : String
  narration : String
  voucherNumber : String
  effectiveDate : String
  entries : List LedgerEntry
deriving DecidableEq, Repr

/-- src/testing.py lines 506-522: one TCS component ledger line, with
the deemed-positive flag derived from the amount's sign. -/
def tcs_line (name : String) (amt : ℚ) : LedgerEntry :=
  ⟨name, amt, decide (amt < 0), []⟩

/-- src/testing.py lines 519-522: the four component ledger lines,
each posted as the negation of its grand total. -/
def tcs_component_lines (rows : List Row) : List LedgerEntry :=
  let t := tcs_totals rows
  [tcs_line "Amazon - TCS - CGST" (-t.1),
   tcs_line "Amazon - TCS - SGST" (-t.2.1),
   tcs_line "Amazon - TCS - UTGST" (-t.2.2.1),
   tcs_line "Amazon - TCS - IGST" (-t.2.2.2)]

/-- src/testing.py lines 524-543: the final party ledger line for
Amazon, emitted only when the net of the four grand totals is
non-zero, with amount the net itself, flag `"Yes"` unless the net is
positive, and one bill allocation per order with non-zero per-order
total. -/
def tcs_party_lines (rows : List Row) : List LedgerEntry :=
  let t := tcs_totals rows
  let net := t.1 + t.2.1 + t.2.2.1 + t.2.2.2
  if net ≠ 0 then
    [⟨"Amazon.in", net, if 0 < net then false else true,
      ((per_order rows).filter (fun p => p.2 ≠ 0)).map (fun p => ⟨p.1, p.2⟩)⟩]
  else []

/-- All four TCS grand totals are zero — the guard under which
`build_tcs_voucher` returns no voucher. -/
def tcs_all_zero (rows : List Row) : Prop :=
  (tcs_totals rows).1 = 0 ∧ (tcs_totals rows).2.1 = 0 ∧
  (tcs_totals rows).2.2.1 = 0 ∧ (tcs_totals rows).2.2.2 = 0

instance (rows : List Row) : Decidable (tcs_all_zero rows) := by
  unfold tcs_all_zero; infer_instance

/-- src/testing.py line 495: the invoice-date parses of the whole
batch, in row order; the first malformed non-empty date propagates
its `ValueError`. -/
def parse_all_dates (rows : List Row) : Except Unit (List (Option Date)) :=
  match rows with
  | [] => .ok []
  | r :: rest =>
      match parse_date r.invoiceDate, parse_all_dates rest with
      | .ok dt, .ok rest' => .ok (dt :: rest')
      | .error e, _ => .error e
      | _, .error e => .error e

/-- src/testing.py line 495: the `dt_invoices` list — the parsed
invoice dates of the batch, the unparseable-empty ones dropped. -/
def tcs_dates (rows : List Row) : Except Unit (List Date) :=
  match parse_all_dates rows with
  | .error e => .error e
  | .ok parsed => .ok (parsed.filterMap id)

/-- src/testing.py lines 468-545: `build_tcs_voucher`.  When all four
grand totals are zero no voucher is produced (`ok none`), before any
date is parsed.  Otherwise the invoice dates of all rows are parsed,
the voucher's dates come from the earliest and latest parsed dates,
or from the current date/time `now` (`datetime.today()`, made an
explicit parameter here) when no row has a parseable non-empty date,
and the entries are the four component lines followed by the
conditional party line. -/
def build_tcs_voucher (rows : List Row) (now : Date) :
    Except Unit (Option TcsVoucher) :=
  if tcs_all_zero rows then .ok none
  else
    match tcs_dates rows with
    | .error e => .error e
    | .ok dts =>
        let dmin := dt_min dts now
        let dmax := dt_max dts now
        .ok (some ⟨tally_date dmax,
          "TCS Recorded from  " ++ tcs_stamp dmin ++ " to " ++ tcs_stamp dmax,
          tcs_stamp dmax,
          tally_date dmax,
          tcs_component_lines rows ++ tcs_party_lines rows⟩)

/-! ### The document assembler -/

/-- One `TALLYMESSAGE` wrapper: an invoice voucher or the TCS
voucher. -/
inductive Msg where
  | invoice (v : Voucher)
  | tcs (v : TcsVoucher)
deriving DecidableEq, Repr

/-- The per-row date parses of `build_voucher` (src/testing.py lines
143-145): invoice, order (falling back to the invoice date when the
raw field is empty, Python's `or`) and credit-note dates.  A
malformed non-empty date aborts the whole conversion; the voucher's
header date fields themselves are not modeled. -/
def build_voucher_e (r : Row) : Except Unit Voucher :=
  match parse_date r.invoiceDate,
        parse_date (if r.orderDate = "" then r.invoiceDate else r.orderDate),
        parse_date (if r.creditNoteDate = "" then r.invoiceDate else r.creditNoteDate) with
  | .ok _, .ok _, .ok _ => .ok (build_voucher r)
  | _, _, _ => .error ()

/-- src/testing.py lines 565-568: the per-row loop of `convert`,
appending one invoice-voucher message per row to the request data. -/
def build_all (rows : List Row) (acc : List Msg) : Except Unit (List Msg) :=
  match rows with
  | [] => .ok acc
  | r :: rest =>
      match build_voucher_e r with
      | .error e => .error e
      | .ok v => build_all rest (acc ++ [Msg.invoice v])

/-- src/testing.py lines 548-576: `convert`.  One invoice voucher is
appended to the request data per input row, in row order, and the TCS
voucher, when produced, is appended last. -/
def convert (rows : List Row) (now : Date) : Except Unit (List Msg) :=
  match build_all rows [] with
  | .error e => .error e
  | .ok reqdata =>
      match build_tcs_voucher rows now with
      | .error e => .error e
      | .ok (some v) => .ok (reqdata ++ [Msg.tcs v])
      | .ok none => .ok reqdata

/-! ### Claim-side definitions and concrete inputs -/

/-- The four GST ledger names the routing algorithm can emit. -/
def gstNames : List String := ["IGST @ 18%", "CGST @ 9%", "SGST @ 9%", "UTGST @ 9%"]

/-- The GST ledger lines of a voucher: name and amount of every
ledger entry carrying one of the four GST ledger names. -/
def gst_ledger_lines (v : Voucher) : List (String × ℚ) :=
  (v.entries.filter (fun e => gstNames.contains e.ledgerName)).map
    (fun e => (e.ledgerName, e.amount))

/-- The GST ledger selection exactly as claim C1 states it (the claim
asserts which entries appear and their amounts, not their relative
order; the source's CGST, SGST, UTGST order is used). -/
def gst_lines_claim (r : Row) : List (String × ℚ) :=
  if is_interstate r then
    if r.igst + r.shipIgst + r.shipPromoTax ≠ 0 then
      [("IGST @ 18%", r.igst + r.shipIgst + r.shipPromoTax)]
    else []
  else if r.utgst ≠ 0 ∨ r.shipUtgst ≠ 0 then
    (if r.cgst + r.shipCgst ≠ 0 then [("CGST @ 9%", r.cgst + r.shipCgst)] else []) ++
    (if r.sgst + r.shipSgst ≠ 0 then [("SGST @ 9%", r.sgst + r.shipSgst)] else []) ++
    (if r.utgst + r.shipUtgst + r.shipPromoTax ≠ 0 then
      [("UTGST @ 9%", r.utgst + r.shipUtgst + r.shipPromoTax)] else [])
  else
    (if r.cgst + r.shipCgst + r.shipPromoTax / 2 ≠ 0 then
      [("CGST @ 9%", r.cgst + r.shipCgst + r.shipPromoTax / 2)] else []) ++
    (if r.sgst + r.shipSgst + r.shipPromoTax / 2 ≠ 0 then
      [("SGST @ 9%", r.sgst + r.shipSgst + r.shipPromoTax / 2)] else []) ++
    (if r.utgst + r.shipUtgst ≠ 0 then [("UTGST @ 9%", r.utgst + r.shipUtgst)] else [])

/-- The compact formatting mode exactly as claim C7 states it: zero
to `"0"`, a non-zero integral value to the one-fractional-digit
rendering, any non-integral value to its two-decimal quantization
with trailing zeros (and a then-trailing point) stripped. -/
def fmt_amount_compact_claim (x : DecFin) : Except Unit String :=
  if x.coeff = 0 then .ok "0"
  else if isIntegral x then .ok (formatFixed1 x)
  else (quantizeTo2 x).map (fun q => strip0dot (strDec q))

/-- A row with every monetary field zero and no dates: the base for
the concrete test rows below. -/
def zeroRow : Row :=
  ⟨"Shipment", "O1", "Delhi", "Delhi", "", "", "",
    0, 0, 0, 0, 0, 0, 0, 0, 0, 0, 0, 0, 0, 0, 0, 0, 0⟩

/-- Claim C4's single interstate refund row: invoice amount 1000.00,
IGST 180.00, every shipping field zero. -/
def c4row : Row :=
  ⟨"Refund", "O1", "Karnataka", "Delhi", "", "", "",
    1000, 1000, 0, 0, 180, 0, 0, 0, 0, 0, 0, 0, 0, 0, 0, 0, 0⟩

/-- An intrastate row with a negative shipping amount and a negative
shipping-promo discount, exhibiting the hard-coded deemed-positive
flag of the promo ledger entry. -/
def promoRow : Row :=
  ⟨"Shipment", "O1", "Delhi", "Delhi", "", "", "",
    0, 0, 0, 0, 0, 0, -3, -10, 0, 0, 0, 0, 0, 0, 0, 0, 0⟩

/-- A row whose only non-zero field is a TCS CGST amount of 5. -/
def tcsRow5 : Row :=
  ⟨"Shipment", "O1", "Delhi", "Delhi", "", "", "",
    0, 0, 0, 0, 0, 0, 0, 0, 0, 0, 0, 0, 0, 5, 0, 0, 0⟩

/-- A row with TCS CGST 5 and TCS SGST -5: non-zero component totals
whose net is zero. -/
def tcsRowNet0 : Row :=
  ⟨"Shipment", "O1", "Delhi", "Delhi", "", "", "",
    0, 0, 0, 0, 0, 0, 0, 0, 0, 0, 0, 0, 0, 5, -5, 0, 0⟩

/-- A fixed stand-in for `datetime.today()`. -/
def tcsNow : Date := ⟨2024, 1, 1, 0, 0⟩

/-- A second, different stand-in for `datetime.today()`. -/
def tcsNow2 : Date := ⟨2024, 1, 2, 0, 0⟩

/-- The batch of claim C2's counterexample: one row with component
totals 5 and -5, so a voucher is produced but its net is zero. -/
def tcsCexRows : List Row := [tcsRowNet0]

/-- A batch with a single non-zero TCS total of 5. -/
def tcsWRows : List Row := [tcsRow5]

/-- The TCS voucher `build_tcs_voucher tcsWRows tcsNow` produces. -/
def tcsWVoucher : TcsVoucher :=
  ⟨tally_date tcsNow,
    "TCS Recorded from  " ++ tcs_stamp tcsNow ++ " to " ++ tcs_stamp tcsNow,
    tcs_stamp tcsNow, tally_date tcsNow,
    tcs_component_lines tcsWRows ++ tcs_party_lines tcsWRows⟩

/-- The TCS voucher `build_tcs_voucher tcsWRows tcsNow2` produces. -/
def tcsWVoucher2 : TcsVoucher :=
  ⟨tally_date tcsNow2,
    "TCS Recorded from  " ++ tcs_stamp tcsNow2 ++ " to " ++ tcs_stamp tcsNow2,
    tcs_stamp tcsNow2, tally_date tcsNow2,
    tcs_component_lines tcsWRows ++ tcs_party_lines tcsWRows⟩

/-- The shipping ledger entry of `promoRow`'s voucher. -/
def promoShipEntry : LedgerEntry := ⟨"Shipping Charges", -3, true, []⟩

/-- The shipping-promo ledger entry of `promoRow`'s voucher. -/
def promoPromoEntry : LedgerEntry := ⟨"ship-promotion-discount", -10, false, []⟩

/-- The first TCS component line of the batch `tcsWRows`. -/
def tcsCgstEntry : LedgerEntry := ⟨"Amazon - TCS - CGST", -5, true, []⟩

/-- A two-row batch with no TCS amounts anywhere, used to exercise
the document ordering. -/
def docRows : List Row := [c4row, promoRow]

/-- The document `convert docRows tcsNow` produces. -/
def docOut : List Msg :=
  [Msg.invoice (build_voucher c4row), Msg.invoice (build_voucher promoRow)]

/-! ### Helper lemmas -/

theorem digitChar_isDigit (n : ℕ) : (digitChar n).isDigit = true := by
  induction n using Nat.strong_induction_on with
  | _ n ih =>
    match n with
    | 0 | 1 | 2 | 3 | 4 | 5 | 6 | 7 | 8 | 9 => decide
    | m + 10 => exact ih m (by omega)

theorem twoFracDigits_formatFixed2 (neg : Bool) (c : ℕ) :
    twoFracDigits (formatFixed2 neg c) = true := by
  unfold twoFracDigits formatFixed2
  show twoFracDigitsL (List.reverse (_ ++ _ ++ ['.', _, _])) = true
  rw [List.reverse_append]
  simp [twoFracDigitsL, digitChar_isDigit]

theorem oneFracDigit_formatFixed1 (x : DecFin) :
    oneFracDigit (formatFixed1 x) = true := by
  unfold oneFracDigit formatFixed1
  show oneFracDigitL (List.reverse (_ ++ _ ++ ['.', _])) = true
  rw [List.reverse_append]
  simp [oneFracDigitL, digitChar_isDigit]

theorem isIntegral_of_coeff_zero (x : DecFin) (h : x.coeff = 0) :
    isIntegral x = true := by
  unfold isIntegral
  rw [h]
  split <;> simp

/-! ### Claim C5 -/

/-- C5: for every textual amount input, the decimal normalizer never
raises (it is a total function of the input string by construction,
the exception handler being the fallback-to-zero branch); an empty or
all-whitespace string, and any string the decimal parser rejects,
both normalize to exactly `Decimal("0")`. -/
theorem d_lenient_zero (s : String)
    (h : pyStrip s = "" ∨ parseDecimal (pyStrip s) = none) : d s = decZero := by
  unfold d
  rcases h with h | h
  · simp [h]
  · by_cases he : pyStrip s = ""
    · simp [he]
    · simp [he, h]

theorem d_lenient_zero_witness :
    d "  not a number  " = decZero :=
  d_lenient_zero "  not a number  " (Or.inr (by rfl))

/-! ### Claim C10 -/

/-- C10: the strings `"NaN"` and `"Infinity"` are accepted by the
decimal parser, so the normalizer returns the corresponding special
non-finite decimal value — not zero — and such a field enters
computation as a non-finite amount. -/
theorem d_special_numerals :
    d "NaN" = .nan false false ∧ d "Infinity" = .inf false ∧
    (d "NaN").isFinite = false ∧ (d "Infinity").isFinite = false ∧
    d "NaN" ≠ decZero ∧ d "Infinity" ≠ decZero := by
  have h1 : d "NaN" = .nan false false := by rfl
  have h2 : d "Infinity" = .inf false := by rfl
  have h3 : d "NaN" ≠ decZero := by
    rw [h1]
    intro h
    cases h
  have h4 : d "Infinity" ≠ decZero := by
    rw [h2]
    intro h
    cases h
  exact ⟨h1, h2, by rw [h1]; rfl, by rw [h2]; rfl, h3, h4⟩

/-! ### Claim C6 -/

/-- C6 counterexample: at the finite decimal `1E+30` the two-decimal
formatting mode does not return a string at all — the quantization to
two fractional digits needs a 33-digit coefficient, which exceeds the
28-digit context precision and raises `InvalidOperation`. -/
theorem fmt_two_overflow_cex :
    fmt_amount_two (.fin ⟨false, 1, 30⟩) = .error () := by rfl

/-- C6 amended: for every finite decimal input whose two-decimal
quantization fits in the 28-digit context precision, the two-decimal
formatting mode returns a string with exactly two digits after the
decimal point. -/
theorem fmt_two_frac_digits (x : DecFin) (h : quant2Coeff x < 10 ^ 28) :
    fmt_amount_two (.fin x) = .ok (formatFixed2 x.neg (quant2Coeff x)) ∧
    twoFracDigits (formatFixed2 x.neg (quant2Coeff x)) = true := by
  constructor
  · show (quantizeTo2 x).map (fun q => formatFixed2 q.neg q.coeff) = _
    unfold quantizeTo2
    rw [if_pos h]
    rfl
  · exact twoFracDigits_formatFixed2 x.neg (quant2Coeff x)

theorem fmt_two_frac_digits_witness :
    fmt_amount_two (.fin ⟨false, 101610, -2⟩) =
      .ok (formatFixed2 false (quant2Coeff ⟨false, 101610, -2⟩)) ∧
    twoFracDigits (formatFixed2 false (quant2Coeff ⟨false, 101610, -2⟩)) = true :=
  fmt_two_frac_digits ⟨false, 101610, -2⟩ (by norm_num [quant2Coeff])

/-! ### Claim C7 -/

/-- C7 counterexample: the non-integral, non-zero value `1E-7` is
rendered in scientific notation by `str`, so the compact mode returns
it unchanged as `"1E-7"`, while the claim's rule (quantize to two
digits and strip trailing zeros) yields `"0"`. -/
theorem fmt_compact_scientific_cex :
    fmt_amount (.fin ⟨false, 1, -7⟩) = .ok "1E-7" ∧
    fmt_amount_compact_claim ⟨false, 1, -7⟩ = .ok "0" ∧
    ("1E-7" : String) ≠ "0" := by
  refine ⟨rfl, rfl, by decide⟩

/-- C7 amended: the compact mode maps zero to `"0"` and a non-zero
integral value to a rendering with exactly one fractional digit; a
non-integral value is mapped to its two-decimal quantization with
trailing zeros stripped only when its plain rendering contains a
decimal point (adjusted exponent at least -6; the quantization itself
raises when its coefficient exceeds the 28-digit precision), and is
returned as its unquantized scientific rendering otherwise. -/
theorem fmt_compact_spec (x : DecFin) :
    (x.coeff = 0 → fmt_amount (.fin x) = .ok "0") ∧
    (x.coeff ≠ 0 → isIntegral x = true →
      fmt_amount (.fin x) = .ok (formatFixed1 x) ∧
      oneFracDigit (formatFixed1 x) = true) ∧
    (isIntegral x = false → hasDot (strDec x) = true →
      fmt_amount (.fin x) = (quantizeTo2 x).map (fun q => strip0dot (strDec q))) ∧
    (isIntegral x = false → hasDot (strDec x) = false →
      fmt_amount (.fin x) = .ok (strDec x)) := by
  refine ⟨fun h0 => ?_, fun h0 hI => ⟨?_, oneFracDigit_formatFixed1 x⟩,
    fun hI hD => ?_, fun hI hD => ?_⟩
  · show (if x.coeff = 0 then Except.ok "0"
      else if isIntegral x = true then Except.ok (formatFixed1 x)
      else if hasDot (strDec x) = true then
        (quantizeTo2 x).map (fun q => strip0dot (strDec q))
      else Except.ok (strDec x)) = _
    rw [if_pos h0]
  · show (if x.coeff = 0 then Except.ok "0"
      else if isIntegral x = true then Except.ok (formatFixed1 x)
      else if hasDot (strDec x) = true then
        (quantizeTo2 x).map (fun q => strip0dot (strDec q))
      else Except.ok (strDec x)) = _
    rw [if_neg h0, if_pos hI]
  · have h0 : ¬ x.coeff = 0 := fun h => by
      rw [isIntegral_of_coeff_zero x h] at hI; simp at hI
    show (if x.coeff = 0 then Except.ok "0"
      else if isIntegral x = true then Except.ok (formatFixed1 x)
      else if hasDot (strDec x) = true then
        (quantizeTo2 x).map (fun q => strip0dot (strDec q))
      else Except.ok (strDec x)) = _
    rw [if_neg h0, if_neg (by simp [hI]), if_pos hD]
  · have h0 : ¬ x.coeff = 0 := fun h => by
      rw [isIntegral_of_coeff_zero x h] at hI; simp at hI
    show (if x.coeff = 0 then Except.ok "0"
      else if isIntegral x = true then Except.ok (formatFixed1 x)
      else if hasDot (strDec x) = true then
        (quantizeTo2 x).map (fun q => strip0dot (strDec q))
      else Except.ok (strDec x)) = _
    rw [if_neg h0, if_neg (by simp [hI]), if_neg (by simp [hD])]

theorem fmt_compact_spec_witness :
    fmt_amount (.fin ⟨false, 0, 0⟩) = .ok "0" ∧
    (fmt_amount (.fin ⟨false, 50, 0⟩) = .ok (formatFixed1 ⟨false, 50, 0⟩) ∧
      oneFracDigit (formatFixed1 ⟨false, 50, 0⟩) = true) ∧
    fmt_amount (.fin ⟨false, 101610, -2⟩) =
      (quantizeTo2 ⟨false, 101610, -2⟩).map (fun q => strip0dot (strDec q)) ∧
    fmt_amount (.fin ⟨false, 1, -7⟩) = .ok (strDec ⟨false, 1, -7⟩) :=
  ⟨(fmt_compact_spec ⟨false, 0, 0⟩).1 rfl,
    (fmt_compact_spec ⟨false, 50, 0⟩).2.1 (by decide) (by rfl),
    (fmt_compact_spec ⟨false, 101610, -2⟩).2.2.1 (by rfl) (by rfl),
    (fmt_compact_spec ⟨false, 1, -7⟩).2.2.2 (by rfl) (by rfl)⟩

/-! ### Claim C1 -/

theorem ship_entries_filter (r : Row) :
    (ship_entries r).filter (fun e => gstNames.contains e.ledgerName) = [] := by
  unfold ship_entries
  split <;> rfl

theorem promo_entries_filter (r : Row) :
    (promo_entries r).filter (fun e => gstNames.contains e.ledgerName) = [] := by
  unfold promo_entries
  split <;> rfl

theorem filter_gst_singleton (name : String) (amt : ℚ) (c : Prop) [Decidable c]
    (h : gstNames.contains name = true) :
    (if c then [mkGstEntry name amt] else []).filter
      (fun e => gstNames.contains e.ledgerName) =
      (if c then [mkGstEntry name amt] else []) := by
  split
  · rw [List.filter_cons]
    rw [show gstNames.contains (mkGstEntry name amt).ledgerName = true from h]
    rfl
  · rfl

theorem gst_entries_filter (r : Row) :
    (gst_entries r).filter (fun e => gstNames.contains e.ledgerName) = gst_entries r := by
  unfold gst_entries
  split
  · split <;> rfl
  · rw [List.filter_append, List.filter_append,
      filter_gst_singleton "CGST @ 9%" _ _ rfl,
      filter_gst_singleton "SGST @ 9%" _ _ rfl,
      filter_gst_singleton "UTGST @ 9%" _ _ rfl]

theorem gst_filter_build (r : Row) :
    (build_voucher r).entries.filter (fun e => gstNames.contains e.ledgerName) =
      gst_entries r := by
  show (party_entry r :: (ship_entries r ++ promo_entries r ++ gst_entries r)).filter _ = _
  rw [List.filter_cons]
  rw [show gstNames.contains (party_entry r).ledgerName = false from rfl]
  simp only [Bool.false_eq_true, if_false, List.filter_append, ship_entries_filter,
    promo_entries_filter, gst_entries_filter, List.nil_append]

theorem total_cgst_utgst (r : Row) (h : r.utgst ≠ 0 ∨ r.shipUtgst ≠ 0) :
    total_cgst r = r.cgst + r.shipCgst := if_pos h

theorem total_sgst_utgst (r : Row) (h : r.utgst ≠ 0 ∨ r.shipUtgst ≠ 0) :
    total_sgst r = r.sgst + r.shipSgst := if_pos h

theorem total_utgst_utgst (r : Row) (h : r.utgst ≠ 0 ∨ r.shipUtgst ≠ 0) :
    total_utgst r = r.utgst + r.shipUtgst + r.shipPromoTax := if_pos h

theorem total_cgst_split (r : Row) (h : ¬ (r.utgst ≠ 0 ∨ r.shipUtgst ≠ 0)) :
    total_cgst r = r.cgst + r.shipCgst + r.shipPromoTax / 2 := if_neg h

theorem total_sgst_split (r : Row) (h : ¬ (r.utgst ≠ 0 ∨ r.shipUtgst ≠ 0)) :
    total_sgst r = r.sgst + r.shipSgst + r.shipPromoTax / 2 := if_neg h

theorem total_utgst_split (r : Row) (h : ¬ (r.utgst ≠ 0 ∨ r.shipUtgst ≠ 0)) :
    total_utgst r = r.utgst + r.shipUtgst := if_neg h

theorem gst_map_claim (r : Row) :
    (gst_entries r).map (fun e => (e.ledgerName, e.amount)) = gst_lines_claim r := by
  unfold gst_entries gst_lines_claim
  by_cases hI : is_interstate r = true
  · simp only [hI, if_true]
    split <;> rfl
  · simp only [hI, if_false, Bool.false_eq_true]
    by_cases hU : r.utgst ≠ 0 ∨ r.shipUtgst ≠ 0
    · rw [total_cgst_utgst r hU, total_sgst_utgst r hU, total_utgst_utgst r hU, if_pos hU]
      split_ifs <;> rfl
    · rw [total_cgst_split r hU, total_sgst_split r hU, total_utgst_split r hU, if_neg hU]
      split_ifs <;> rfl

/-- C1: for every sales record, the GST ledger entries of its voucher
are selected as the claim states: interstate rows emit a single IGST
entry of item IGST + shipping IGST + shipping-promo tax only if that
sum is non-zero; intrastate rows with a non-zero UTGST component emit
UTGST = item + shipping UTGST + promo tax, CGST = item + shipping
CGST and SGST = item + shipping SGST, each only if non-zero;
intrastate rows with both UTGST components zero add exactly half the
promo tax to each of CGST and SGST and emit a UTGST entry only if
item UTGST + shipping UTGST is non-zero.  The halving is exact: the
two halves sum back to the promo tax. -/
theorem gst_routing (r : Row) :
    gst_ledger_lines (build_voucher r) = gst_lines_claim r ∧
    r.shipPromoTax / 2 + r.shipPromoTax / 2 = r.shipPromoTax := by
  constructor
  · unfold gst_ledger_lines
    rw [gst_filter_build, gst_map_claim]
  · ring

/-! ### TCS voucher helper lemmas -/

theorem build_tcs_none_iff (rows : List Row) (now : Date) :
    build_tcs_voucher rows now = .ok none ↔ tcs_all_zero rows := by
  unfold build_tcs_voucher
  split
  next h => simp [h]
  next h =>
    cases hm : tcs_dates rows with
    | error e => simp [h]
    | ok parsed => simp [h]

theorem build_tcs_ok_some (rows : List Row) (now : Date) (v : TcsVoucher)
    (h : build_tcs_voucher rows now = .ok (some v)) :
    v.entries = tcs_component_lines rows ++ tcs_party_lines rows := by
  unfold build_tcs_voucher at h
  split at h
  · exact absurd h (by simp)
  · cases hm : tcs_dates rows with
    | error e => rw [hm] at h; exact absurd h (by simp)
    | ok parsed =>
        rw [hm] at h
        simp only [Except.ok.injEq, Option.some.injEq] at h
        rw [← h]

/-! ### Claim C2 -/

theorem tcs_all_zero_cexRows : ¬ tcs_all_zero tcsCexRows := by
  norm_num [tcs_all_zero, tcs_totals, tcsCexRows, tcsRowNet0]

/-- C2 counterexample: the one-row batch with TCS CGST 5 and TCS SGST
-5 has a non-zero component total, so a TCS voucher is produced, but
its net is zero and the voucher carries only the four component lines
— no final party ledger line for Amazon, contrary to the claim. -/
theorem tcs_party_line_missing_cex :
    (tcs_totals tcsCexRows).1 = 5 ∧ (5 : ℚ) ≠ 0 ∧
    build_tcs_voucher tcsCexRows tcsNow =
      .ok (some ⟨tally_date tcsNow,
        "TCS Recorded from  " ++ tcs_stamp tcsNow ++ " to " ++ tcs_stamp tcsNow,
        tcs_stamp tcsNow, tally_date tcsNow,
        tcs_component_lines tcsCexRows ++ tcs_party_lines tcsCexRows⟩) ∧
    tcs_party_lines tcsCexRows = [] ∧
    (tcs_component_lines tcsCexRows ++ tcs_party_lines tcsCexRows).map
        (fun e => e.ledgerName) =
      ["Amazon - TCS - CGST", "Amazon - TCS - SGST", "Amazon - TCS - UTGST",
       "Amazon - TCS - IGST"] := by
  have hp : tcs_party_lines tcsCexRows = [] := by
    norm_num [tcs_party_lines, tcs_totals, tcsCexRows, tcsRowNet0]
  refine ⟨by norm_num [tcs_totals, tcsCexRows, tcsRowNet0], by norm_num, ?_, hp, ?_⟩
  · unfold build_tcs_voucher
    rw [if_neg tcs_all_zero_cexRows]
    rfl
  · rw [hp]
    rfl

/-- C2 amended: for every batch, the TCS journal voucher is produced
iff at least one of the four grand totals is non-zero; when produced
it contains the four component lines, each the negation of its grand
total, followed by the Amazon party line — the latter only when the
net sum of the four totals is non-zero, carrying one bill allocation
per order with non-zero per-order TCS total (`tcs_party_lines` is
empty when the net is zero). -/
theorem tcs_voucher_spec (rows : List Row) (now : Date) :
    (build_tcs_voucher rows now = .ok none ↔ tcs_all_zero rows) ∧
    (∀ v, build_tcs_voucher rows now = .ok (some v) →
      v.entries = tcs_component_lines rows ++ tcs_party_lines rows) :=
  ⟨build_tcs_none_iff rows now, fun v h => build_tcs_ok_some rows now v h⟩

theorem tcs_all_zero_wrows : ¬ tcs_all_zero tcsWRows := by
  norm_num [tcs_all_zero, tcs_totals, tcsWRows, tcsRow5]

theorem build_tcs_wrows :
    build_tcs_voucher tcsWRows tcsNow = .ok (some tcsWVoucher) := by
  unfold build_tcs_voucher
  rw [if_neg tcs_all_zero_wrows]
  rfl

theorem tcs_voucher_spec_witness :
    tcsWVoucher.entries = tcs_component_lines tcsWRows ++ tcs_party_lines tcsWRows :=
  (tcs_voucher_spec tcsWRows tcsNow).2 tcsWVoucher build_tcs_wrows

/-! ### Claim C3 -/

theorem mem_ite_singleton (e x : LedgerEntry) (c : Prop) [Decidable c]
    (he : e ∈ (if c then [x] else [])) : c ∧ e = x := by
  split at he
  next hc => exact ⟨hc, List.mem_singleton.mp he⟩
  next hc => cases he

theorem flag_decide_iff (e : LedgerEntry)
    (h : e.isDeemedPositive = decide (e.amount < 0)) :
    e.isDeemedPositive = true ↔ e.amount < 0 := by
  rw [h]
  exact decide_eq_true_iff

theorem gst_entries_flag (r : Row) (e : LedgerEntry) (he : e ∈ gst_entries r) :
    e.isDeemedPositive = decide (e.amount < 0) := by
  unfold gst_entries at he
  split at he
  · have h := mem_ite_singleton e _ _ he
    rw [h.2]
    rfl
  · rcases List.mem_append.mp he with h | h
    · rcases List.mem_append.mp h with h1 | h1
      · rw [(mem_ite_singleton e _ _ h1).2]
        rfl
      · rw [(mem_ite_singleton e _ _ h1).2]
        rfl
    · rw [(mem_ite_singleton e _ _ h).2]
      rfl

theorem gst_entries_promoRow : gst_entries promoRow = [] := by
  have hI : is_interstate promoRow = false := by decide
  have hc : total_cgst promoRow = 0 := by norm_num [total_cgst, promoRow]
  have hs : total_sgst promoRow = 0 := by norm_num [total_sgst, promoRow]
  have hu : total_utgst promoRow = 0 := by norm_num [total_utgst, promoRow]
  unfold gst_entries
  rw [hI]
  norm_num [hc, hs, hu]

theorem entries_promoRow :
    (build_voucher promoRow).entries =
      [party_entry promoRow, promoShipEntry, promoPromoEntry] := by
  show party_entry promoRow ::
    (ship_entries promoRow ++ promo_entries promoRow ++ gst_entries promoRow) = _
  rw [gst_entries_promoRow]
  rfl

/-- C3 counterexample: on `promoRow` (shipping promo discount -10)
the shipping-promo ledger entry has a negative amount but its
deemed-positive flag is `false` — the source hard-codes `"No"` for
this entry — so the flag is not true exactly when the amount is
negative. -/
theorem promo_flag_cex :
    (build_voucher promoRow).entries.filter
        (fun e => e.ledgerName == "ship-promotion-discount") =
      [⟨"ship-promotion-discount", -10, false, []⟩] ∧
    ((-10 : ℚ) < 0) ∧ (false : Bool) ≠ true := by
  refine ⟨?_, by norm_num, by decide⟩
  rw [entries_promoRow]
  rfl

/-- C3 amended: every ledger entry built by the voucher builder other
than the shipping-promo entry, the inventory flags, and every ledger
entry of the TCS voucher carry a deemed-positive flag that is true
exactly when the entry's signed amount is negative; the
shipping-promo entry's flag is always false. -/
theorem deemed_positive_flags (r : Row) (rows : List Row) (now : Date) :
    (∀ e ∈ (build_voucher r).entries, e.ledgerName ≠ "ship-promotion-discount" →
      (e.isDeemedPositive = true ↔ e.amount < 0)) ∧
    (∀ e ∈ (build_voucher r).entries, e.ledgerName = "ship-promotion-discount" →
      e.isDeemedPositive = false) ∧
    ((build_voucher r).invAccDeemed = true ↔ r.principalBasis < 0) ∧
    ((build_voucher r).invDeemed = true ↔ r.principalBasis < 0) ∧
    (∀ v, build_tcs_voucher rows now = .ok (some v) →
      ∀ e ∈ v.entries, e.isDeemedPositive = true ↔ e.amount < 0) := by
  have hmem : ∀ e ∈ (build_voucher r).entries,
      e = party_entry r ∨ e ∈ ship_entries r ∨ e ∈ promo_entries r ∨ e ∈ gst_entries r := by
    intro e he
    rcases List.mem_cons.mp he with h | h
    · exact Or.inl h
    · rcases List.mem_append.mp h with h1 | h1
      · rcases List.mem_append.mp h1 with h2 | h2
        · exact Or.inr (Or.inl h2)
        · exact Or.inr (Or.inr (Or.inl h2))
      · exact Or.inr (Or.inr (Or.inr h1))
  refine ⟨?_, ?_, decide_eq_true_iff, decide_eq_true_iff, ?_⟩
  · intro e he hne
    rcases hmem e he with h | h | h | h
    · rw [h]
      exact flag_decide_iff _ rfl
    · unfold ship_entries at h
      rw [(mem_ite_singleton e _ _ h).2]
      exact flag_decide_iff _ rfl
    · unfold promo_entries at h
      have h2 := (mem_ite_singleton e _ _ h).2
      rw [h2] at hne
      exact absurd rfl hne
    · exact flag_decide_iff _ (gst_entries_flag r e h)
  · intro e he hpe
    rcases hmem e he with h | h | h | h
    · rw [h] at hpe
      simp [party_entry, mkGstEntry] at hpe
    · unfold ship_entries at h
      rw [(mem_ite_singleton e _ _ h).2] at hpe
      simp [party_entry, mkGstEntry] at hpe
    · unfold promo_entries at h
      rw [(mem_ite_singleton e _ _ h).2]
    · have hn := gst_entries_flag r e h
      unfold gst_entries at h
      split at h
      · rw [(mem_ite_singleton e _ _ h).2] at hpe
        simp [party_entry, mkGstEntry] at hpe
      · rcases List.mem_append.mp h with h1 | h1
        · rcases List.mem_append.mp h1 with h2 | h2
          · rw [(mem_ite_singleton e _ _ h2).2] at hpe
            simp [party_entry, mkGstEntry] at hpe
          · rw [(mem_ite_singleton e _ _ h2).2] at hpe
            simp [party_entry, mkGstEntry] at hpe
        · rw [(mem_ite_singleton e _ _ h1).2] at hpe
          simp [party_entry, mkGstEntry] at hpe
  · intro v hv e he
    rw [build_tcs_ok_some rows now v hv] at he
    rcases List.mem_append.mp he with h | h
    · unfold tcs_component_lines at h
      simp only [List.mem_cons, List.not_mem_nil, or_false] at h
      rcases h with h | h | h | h <;>
        exact h ▸ flag_decide_iff _ rfl
    · unfold tcs_party_lines at h
      rcases mem_ite_singleton e _ _ h with ⟨hnet, rfl⟩
      rcases lt_or_gt_of_ne hnet with hlt | hgt
      · rw [if_neg (not_lt_of_gt hlt)]
        simpa using hlt
      · rw [if_pos hgt]
        constructor
        · intro hfalse
          cases hfalse
        · intro hlt
          exact absurd hlt (not_lt_of_gt hgt)

theorem tcs_entries_wrows :
    tcsWVoucher.entries =
      [tcsCgstEntry, ⟨"Amazon - TCS - SGST", 0, false, []⟩,
       ⟨"Amazon - TCS - UTGST", 0, false, []⟩, ⟨"Amazon - TCS - IGST", 0, false, []⟩,
       ⟨"Amazon.in", 5, false, [⟨"O1", 5⟩]⟩] := by
  show tcs_component_lines tcsWRows ++ tcs_party_lines tcsWRows = _
  norm_num [tcs_component_lines, tcs_party_lines, tcs_line, tcs_totals, per_order,
    upsert, tcsWRows, tcsRow5, tcsCgstEntry, show pyStrip "O1" = "O1" from rfl]

theorem deemed_positive_flags_witness :
    (promoShipEntry.isDeemedPositive = true ↔ promoShipEntry.amount < 0) ∧
    promoPromoEntry.isDeemedPositive = false ∧
    (tcsCgstEntry.isDeemedPositive = true ↔ tcsCgstEntry.amount < 0) :=
  ⟨(deemed_positive_flags promoRow tcsWRows tcsNow).1 promoShipEntry
      (by rw [entries_promoRow]; decide) (by decide),
    (deemed_positive_flags promoRow tcsWRows tcsNow).2.1 promoPromoEntry
      (by rw [entries_promoRow]; decide) (by rfl),
    (deemed_positive_flags promoRow tcsWRows tcsNow).2.2.2.2 tcsWVoucher build_tcs_wrows
      tcsCgstEntry (by rw [tcs_entries_wrows]; decide)⟩

/-! ### Claim C4 -/

theorem gst_entries_c4row :
    gst_entries c4row = [⟨"IGST @ 18%", 180, false, []⟩] := by
  have hI : is_interstate c4row = true := by decide
  unfold gst_entries
  rw [hI]
  norm_num [c4row, mkGstEntry]

theorem entries_c4row :
    (build_voucher c4row).entries =
      [⟨"Amazon.in", 1000, false, [⟨"O1", 1000⟩]⟩,
       ⟨"IGST @ 18%", 180, false, []⟩] := by
  show party_entry c4row ::
    (ship_entries c4row ++ promo_entries c4row ++ gst_entries c4row) = _
  rw [gst_entries_c4row]
  rfl

/-- C4 counterexample: the claim expects the party ledger entry's
deemed-positive flag of the interstate-refund scenario to render
`"Yes"`, but the builder computes `"Yes" if amount < 0 else "No"` and
the party amount is +1000, so the flag is false (`"No"`). -/
theorem refund_party_flag_cex :
    (build_voucher c4row).entries.map (fun e => e.isDeemedPositive) = [false, false] ∧
    (build_voucher c4row).entries.map (fun e => e.amount) = [1000, 180] ∧
    (false : Bool) ≠ true := by
  refine ⟨?_, ?_, by decide⟩
  · rw [entries_c4row]
    rfl
  · rw [entries_c4row]
    rfl

/-- C4 amended: for the single interstate refund row with invoice
amount 1000.00, IGST 180.00 and zero shipping fields, the voucher has
a party ledger entry of +1000 whose deemed-positive flag renders
`"No"` (not `"Yes"`), exactly one IGST ledger entry of 180 and no
CGST, SGST or UTGST entries, and the inventory accounting-allocation
ledger is named `Sales GST Interstate @ 18%`. -/
theorem refund_interstate_scenario :
    (build_voucher c4row).entries =
      [⟨"Amazon.in", 1000, false, [⟨"O1", 1000⟩]⟩,
       ⟨"IGST @ 18%", 180, false, []⟩] ∧
    (0 : ℚ) < 1000 ∧
    gst_ledger_lines (build_voucher c4row) = [("IGST @ 18%", 180)] ∧
    (build_voucher c4row).invAccName = "Sales GST Interstate @ 18%" := by
  refine ⟨entries_c4row, by norm_num, ?_, by rfl⟩
  unfold gst_ledger_lines
  rw [entries_c4row]
  rfl

/-! ### Claim C8 -/

theorem build_voucher_e_ok (r : Row) (v : Voucher)
    (h : build_voucher_e r = .ok v) : v = build_voucher r := by
  unfold build_voucher_e at h
  split at h
  · cases h
    rfl
  all_goals cases h

theorem build_all_ok (rows : List Row) (acc out : List Msg)
    (h : build_all rows acc = .ok out) :
    out = acc ++ rows.map (fun r => Msg.invoice (build_voucher r)) := by
  induction rows generalizing acc with
  | nil =>
      cases h
      simp
  | cons r rest ih =>
      unfold build_all at h
      split at h
      next e heq => cases h
      next v heq =>
        have hv := build_voucher_e_ok r v heq
        rw [ih (acc ++ [Msg.invoice v]) h, hv]
        simp

/-- C8: for every batch on which the conversion succeeds, the output
document consists of one invoice voucher per input row, in row order,
followed by the TCS voucher exactly when one is produced — so the
voucher sequence equals the row sequence and the TCS voucher is
last. -/
theorem convert_order (rows : List Row) (now : Date) (doc : List Msg)
    (h : convert rows now = .ok doc) :
    doc.take rows.length = rows.map (fun r => Msg.invoice (build_voucher r)) ∧
    (build_tcs_voucher rows now = .ok none →
      doc = rows.map (fun r => Msg.invoice (build_voucher r))) ∧
    (∀ tv, build_tcs_voucher rows now = .ok (some tv) →
      doc = rows.map (fun r => Msg.invoice (build_voucher r)) ++ [Msg.tcs tv]) := by
  unfold convert at h
  split at h
  next e heq => cases h
  next reqdata heq =>
    have hreq := build_all_ok rows [] reqdata heq
    rw [List.nil_append] at hreq
    subst hreq
    split at h
    next e heq2 => cases h
    next tv heq2 =>
      cases h
      refine ⟨?_, ?_, ?_⟩
      · rw [← List.length_map rows (fun r => Msg.invoice (build_voucher r)), List.take_left]
      · intro hnone
        rw [heq2] at hnone
        simp at hnone
      · intro tv' hsome
        rw [heq2] at hsome
        simp only [Except.ok.injEq, Option.some.injEq] at hsome
        rw [hsome]
    next heq2 =>
      cases h
      refine ⟨?_, fun _ => rfl, ?_⟩
      · rw [← List.length_map rows (fun r => Msg.invoice (build_voucher r))]
        exact List.take_length _
      · intro tv hsome
        rw [heq2] at hsome
        simp at hsome

theorem build_tcs_docRows : build_tcs_voucher docRows tcsNow = .ok none := by
  unfold build_tcs_voucher
  rw [if_pos]
  norm_num [tcs_all_zero, tcs_totals, docRows, c4row, promoRow]

theorem convert_docRows : convert docRows tcsNow = .ok docOut := by
  unfold convert
  rw [show build_all docRows [] = .ok docOut from rfl, build_tcs_docRows]

theorem convert_order_witness :
    docOut = docRows.map (fun r => Msg.invoice (build_voucher r)) :=
  (convert_order docRows tcsNow docOut convert_docRows).2.1 build_tcs_docRows

/-! ### Claim C9 -/

theorem filterMap_id_map_none (rows : List Row) :
    (rows.map (fun _ => (none : Option Date))).filterMap id = [] := by
  induction rows with
  | nil => rfl
  | cons r rest ih => simp [ih]

theorem parse_all_empty (rows : List Row)
    (hd : ∀ r ∈ rows, pyStrip r.invoiceDate = "") :
    parse_all_dates rows = .ok (rows.map (fun _ => (none : Option Date))) := by
  induction rows with
  | nil => rfl
  | cons r rest ih =>
      have h1 : parse_date r.invoiceDate = .ok none := by
        unfold parse_date
        rw [hd r (List.mem_cons_self r rest)]
        rfl
      unfold parse_all_dates
      rw [h1, ih (fun x hx => hd x (List.mem_cons_of_mem r hx))]
      rfl

theorem tcs_dates_empty (rows : List Row)
    (hd : ∀ r ∈ rows, pyStrip r.invoiceDate = "") :
    tcs_dates rows = .ok [] := by
  unfold tcs_dates
  rw [parse_all_empty rows hd]
  show Except.ok ((rows.map (fun _ => (none : Option Date))).filterMap id) = _
  rw [filterMap_id_map_none]

theorem build_tcs_empty_dates (rows : List Row) (now : Date)
    (hd : ∀ r ∈ rows, pyStrip r.invoiceDate = "") (hz : ¬ tcs_all_zero rows) :
    build_tcs_voucher rows now = .ok (some ⟨tally_date now,
      "TCS Recorded from  " ++ tcs_stamp now ++ " to " ++ tcs_stamp now,
      tcs_stamp now, tally_date now,
      tcs_component_lines rows ++ tcs_party_lines rows⟩) := by
  unfold build_tcs_voucher
  rw [if_neg hz, tcs_dates_empty rows hd]
  rfl

/-- C9: for every batch whose rows all have empty (hence unparseable
non-empty-free) invoice dates but whose TCS totals are not all zero,
the TCS voucher's date, narration, voucher number and effective date
are all derived from the current date/time (`datetime.today()`,
modeled as the explicit `now` parameter), and two runs with different
current dates produce different output documents: the conversion is
not a deterministic function of its input in this case. -/
theorem tcs_current_time_dependence (rows : List Row) (n1 n2 : Date)
    (hd : ∀ r ∈ rows, pyStrip r.invoiceDate = "") (hz : ¬ tcs_all_zero rows) :
    build_tcs_voucher rows n1 = .ok (some ⟨tally_date n1,
      "TCS Recorded from  " ++ tcs_stamp n1 ++ " to " ++ tcs_stamp n1,
      tcs_stamp n1, tally_date n1,
      tcs_component_lines rows ++ tcs_party_lines rows⟩) ∧
    (tally_date n1 ≠ tally_date n2 →
      build_tcs_voucher rows n1 ≠ build_tcs_voucher rows n2) := by
  refine ⟨build_tcs_empty_dates rows n1 hd hz, fun hne heq => hne ?_⟩
  rw [build_tcs_empty_dates rows n1 hd hz, build_tcs_empty_dates rows n2 hd hz] at heq
  simp only [Except.ok.injEq, Option.some.injEq, TcsVoucher.mk.injEq] at heq
  exact heq.1

theorem tcs_current_time_dependence_witness :
    build_tcs_voucher tcsWRows tcsNow ≠ build_tcs_voucher tcsWRows tcsNow2 :=
  (tcs_current_time_dependence tcsWRows tcsNow tcsNow2 (by decide)
    tcs_all_zero_wrows).2 (by decide)

end AnatomyConverter
